import Mathlib

/-!
Verification of the SaaS Landing backend core (src/main.py, src/schemas.py):
account registration and login, contact intake, and blog listing over a
schemaless document store.  The document store adapter (database.py) and the
password hasher (passlib) are not part of src/, so they are modelled from the
specification; the service logic is translated from src/main.py.
-/

/-- A value stored in a document field: a string, a boolean, a list of
strings (used for blog tags), or a store generated object identity. -/
inductive Value where
  | str (s : String)
  | bool (b : Bool)
  | strList (l : List String)
  | oid (n : Nat)
deriving DecidableEq, Repr

/-- A document is a finite list of field name / value bindings, the shallow
embedding of a JSON-like record in a schemaless collection. -/
abbrev Doc := List (String × Value)

/-- Field lookup in a document: the value bound to the first occurrence of
the key, embedding the Python dict get with no default. -/
def docGet (d : Doc) (k : String) : Option Value :=
  (List.find? (fun p => p.1 = k) d).map (fun p => p.2)

/-- Field lookup with a default value, embedding the Python dict get with a
default argument. -/
def docGetD (d : Doc) (k : String) (v : Value) : Value :=
  (docGet d k).getD v

/-- Rendering of a stored value as a string, embedding the Python str()
conversion on the values this backend stores. -/
def Value.asString : Value → String
  | .str s => s
  | .bool b => if b then "True" else "False"
  | .strList _ => ""
  | .oid n => toString n

/-- Rendering of an optional field value as a string: str(None) is the
string None in Python. -/
def pyStr : Option Value → String
  | none => "None"
  | some v => v.asString

/-- The database: an association list from collection names to lists of
documents, plus the counter from which the next object identity is drawn.
Modelled from the spec: the backing store keeps named collections of
documents and assigns a fresh opaque identity to every insert. -/
structure DB where
  colls : List (String × List Doc)
  nextId : Nat
deriving DecidableEq, Repr

/-- The documents of a named collection (empty if the collection does not
exist yet, as in MongoDB). -/
def collGet : List (String × List Doc) → String → List Doc
  | [], _ => []
  | (k, v) :: rest, c => if k = c then v else collGet rest c

/-- Replace the contents of a named collection, creating it if absent. -/
def collSet : List (String × List Doc) → String → List Doc → List (String × List Doc)
  | [], c, ds => [(c, ds)]
  | (k, v) :: rest, c, ds => if k = c then (k, ds) :: rest else (k, v) :: collSet rest c ds

/-- The documents of collection c in database db. -/
def DB.coll (db : DB) (c : String) : List Doc :=
  collGet db.colls c

/-- Whether a document matches a conjunctive equality filter, the only
filter shape this backend uses. -/
def matchesFilter (filter : List (String × Value)) (d : Doc) : Bool :=
  filter.all (fun kv => decide (docGet d kv.1 = some kv.2))

/-- Modelled from the spec: createDocument(collection, doc) of the document
store adapter (database.py, not under src/).  Inserts the document at the
end of the collection with a fresh object identity in field _id and returns
that identity as an opaque string. -/
def create_document (db : DB) (c : String) (doc : Doc) : String × DB :=
  let stored : Doc := ("_id", Value.oid db.nextId) :: doc
  (toString db.nextId,
   { colls := collSet db.colls c (collGet db.colls c ++ [stored]),
     nextId := db.nextId + 1 })

/-- Modelled from the spec: getDocuments(collection, filter, limit) of the
document store adapter (database.py, not under src/).  Returns up to limit
documents matching the filter, in store order. -/
def get_documents (db : DB) (c : String) (filter : List (String × Value)) (limit : Nat) :
    List Doc :=
  List.take limit (List.filter (fun d => matchesFilter filter d) (db.coll c))

/-- Modelled from the spec: the MongoDB find_one call used directly by
main.py — the first document of the collection matching the filter. -/
def find_one (db : DB) (c : String) (filter : List (String × Value)) : Option Doc :=
  List.find? (fun d => matchesFilter filter d) (db.coll c)

/-- Embedding of the Python str.lower() used by register and login:
lowercase every character. -/
def pyLower (s : String) : String :=
  ⟨s.data.map Char.toLower⟩

/-- Modelled from the spec: hash(plaintext) of the credential hasher
(passlib CryptContext with the bcrypt scheme, not part of src/).  A salted
one way hash; modelled as a tagged injective encoding of the plaintext. -/
def hash_password (password : String) : String :=
  ⟨'$' :: '2' :: 'b' :: '$' :: password.data⟩

/-- Modelled from the spec: verify(plaintext, hash) of the credential
hasher.  Returns true exactly when the hash is the hash of the plaintext;
in particular it returns false, and never raises, on a mismatch, a
malformed hash, or an empty hash. -/
def verify_password (password hashed : String) : Bool :=
  decide (hashed = hash_password password)

/-- Request payload of POST /auth/register (src/main.py RegisterRequest).
The boundary validates the email shape and a password length of at least 6;
the service receives plain strings. -/
structure RegisterRequest where
  name : String
  email : String
  password : String
deriving DecidableEq, Repr

/-- Request payload of POST /auth/login (src/main.py LoginRequest). -/
structure LoginRequest where
  email : String
  password : String
deriving DecidableEq, Repr

/-- Request payload of POST /contact (src/main.py ContactRequest). -/
structure ContactRequest where
  name : String
  email : String
  message : String
deriving DecidableEq, Repr

/-- Response of register and login (src/main.py AuthResponse). -/
structure AuthResponse where
  id : String
  name : String
  email : String
deriving DecidableEq, Repr

/-- Response of POST /contact: the literal status string and the new
identity (src/main.py create_contact). -/
structure ContactStatus where
  status : String
  id : String
deriving DecidableEq, Repr

/-- A normalized blog entry (src/main.py BlogItem). -/
structure BlogItem where
  title : String
  slug : String
  excerpt : Option String
  content : String
  author : Option String
  tags : Option (List String)
deriving DecidableEq, Repr

/-- The error raised by a route: HTTP status code and detail message
(fastapi HTTPException as raised in src/main.py). -/
structure HTTPException where
  status_code : Nat
  detail : String
deriving DecidableEq, Repr

/-- The error every route raises when the store is not initialized
(src/main.py lines 101-102, 119-120, 133-134, 142-143). -/
def storageUnavailableError : HTTPException :=
  { status_code := 500, detail := "Database not configured" }

/-- The registration conflict error (src/main.py line 106). -/
def duplicateEmailError : HTTPException :=
  { status_code := 400, detail := "Email already registered" }

/-- The deliberately generic login failure error (src/main.py lines 124
and 126). -/
def invalidCredentialsError : HTTPException :=
  { status_code := 400, detail := "Invalid email or password" }

/-- Lookup of an account field expected to be a string when building the
login response (src/main.py line 128 passes the raw values to pydantic). -/
def strField (d : Doc) (k : String) : String :=
  match docGet d k with
  | some (Value.str s) => s
  | _ => ""

/-- Embedding of register (src/main.py lines 100-115).  The state is
threaded explicitly: an exception leaves the database exactly as it was. -/
def register (payload : RegisterRequest) (db? : Option DB) :
    Except HTTPException AuthResponse × Option DB :=
  match db? with
  | none => (.error storageUnavailableError, none)
  | some db =>
    match find_one db "user" [("email", Value.str (pyLower payload.email))] with
    | some _ => (.error duplicateEmailError, some db)
    | none =>
      let user_doc : Doc :=
        [("name", Value.str payload.name),
         ("email", Value.str (pyLower payload.email)),
         ("password_hash", Value.str (hash_password payload.password)),
         ("is_active", Value.bool true)]
      let r := create_document db "user" user_doc
      (.ok { id := r.1, name := payload.name, email := pyLower payload.email }, some r.2)

/-- Embedding of login (src/main.py lines 118-128).  Login never writes, so
the database component is returned unchanged on every path. -/
def login (payload : LoginRequest) (db? : Option DB) :
    Except HTTPException AuthResponse × Option DB :=
  match db? with
  | none => (.error storageUnavailableError, none)
  | some db =>
    match find_one db "user" [("email", Value.str (pyLower payload.email))] with
    | none => (.error invalidCredentialsError, some db)
    | some user =>
      if verify_password payload.password
          (Value.asString (docGetD user "password_hash" (Value.str ""))) then
        (.ok { id := pyStr (docGet user "_id"),
               name := strField user "name",
               email := strField user "email" }, some db)
      else
        (.error invalidCredentialsError, some db)

/-- Embedding of create_contact (src/main.py lines 132-137): persist the
payload verbatim and return the new identity. -/
def create_contact (payload : ContactRequest) (db? : Option DB) :
    Except HTTPException ContactStatus × Option DB :=
  match db? with
  | none => (.error storageUnavailableError, none)
  | some db =>
    let r := create_document db "contactmessage"
      [("name", Value.str payload.name),
       ("email", Value.str payload.email),
       ("message", Value.str payload.message)]
    (.ok { status := "ok", id := r.1 }, some r.2)

/-- First demo post seeded by list_blog (src/main.py lines 149-156). -/
def demo1 : Doc :=
  [("title", Value.str "Announcing Cardify: The Modern Fintech Toolkit"),
   ("slug", Value.str "announcing-cardify"),
   ("excerpt", Value.str "We built a developer-first toolkit to help you launch card products faster."),
   ("content", Value.str "Cardify helps teams design, test, and launch card experiences with built-in compliance."),
   ("author", Value.str "Team Cardify"),
   ("tags", Value.strList ["announcement", "fintech"])]

/-- Second demo post seeded by list_blog (src/main.py lines 157-164). -/
def demo2 : Doc :=
  [("title", Value.str "Designing with Glassmorphism in Real Products"),
   ("slug", Value.str "glassmorphism-design"),
   ("excerpt", Value.str "Practical tips for using glassmorphism without sacrificing accessibility."),
   ("content", Value.str "We cover contrast, motion, and depth to make glassmorphic UIs usable."),
   ("author", Value.str "Maya Lee"),
   ("tags", Value.strList ["design", "ux"])]

/-- Third demo post seeded by list_blog (src/main.py lines 165-172). -/
def demo3 : Doc :=
  [("title", Value.str "From Prototype to Production: Our Infrastructure Stack"),
   ("slug", Value.str "infra-stack"),
   ("excerpt", Value.str "How we ship fast while staying compliant."),
   ("content", Value.str "A look at our APIs, data pipelines, and monitoring choices."),
   ("author", Value.str "Dev Team"),
   ("tags", Value.strList ["engineering"])]

/-- The list of the three demo posts, in the order main.py inserts them. -/
def demos : List Doc :=
  [demo1, demo2, demo3]

/-- The seeding loop of list_blog (src/main.py lines 174-175): insert each
demo post in order. -/
def seedDemos (db : DB) : DB :=
  demos.foldl (fun d doc => (create_document d "blogpost" doc).2) db

/-- Normalization of one stored blog document into a BlogItem (src/main.py
lines 181-189): missing title defaults to Untitled, missing slug to the
string rendering of the identity (or the string post if even the identity
is missing), missing content to the empty string; excerpt, author and tags
pass through as absent when missing. -/
def normalizeBlog (p : Doc) : BlogItem :=
  { title :=
      match docGet p "title" with
      | some v => v.asString
      | none => "Untitled"
    slug :=
      match docGet p "slug" with
      | some v => v.asString
      | none => Value.asString (docGetD p "_id" (Value.str "post"))
    excerpt :=
      match docGet p "excerpt" with
      | some (Value.str s) => some s
      | _ => none
    content :=
      match docGet p "content" with
      | some v => v.asString
      | none => ""
    author :=
      match docGet p "author" with
      | some (Value.str s) => some s
      | _ => none
    tags :=
      match docGet p "tags" with
      | some (Value.strList l) => some l
      | _ => none }

/-- Embedding of list_blog (src/main.py lines 141-191): read up to 50
posts, seed the three demo posts when the collection is empty and re-read,
then normalize every document. -/
def list_blog (db? : Option DB) : Except HTTPException (List BlogItem) × Option DB :=
  match db? with
  | none => (.error storageUnavailableError, none)
  | some db =>
    let posts := get_documents db "blogpost" [] 50
    if posts.isEmpty then
      let db1 := seedDemos db
      let posts1 := get_documents db1 "blogpost" [] 50
      (.ok (posts1.map normalizeBlog), some db1)
    else
      (.ok (posts.map normalizeBlog), some db)

deriving instance DecidableEq for Except

/-! ### Helper lemmas about the store and the hasher -/

theorem collGet_collSet_self (cs : List (String × List Doc)) (c : String) (ds : List Doc) :
    collGet (collSet cs c ds) c = ds := by
  induction cs with
  | nil => simp [collSet, collGet]
  | cons p rest ih =>
    obtain ⟨k, v⟩ := p
    by_cases h : k = c
    · simp [collSet, collGet, h]
    · simp [collSet, collGet, h, ih]

theorem collGet_collSet_ne (cs : List (String × List Doc)) (c c2 : String) (ds : List Doc)
    (h : c2 ≠ c) : collGet (collSet cs c ds) c2 = collGet cs c2 := by
  have hne : c ≠ c2 := Ne.symm h
  induction cs with
  | nil => simp [collSet, collGet, hne]
  | cons p rest ih =>
    obtain ⟨k, v⟩ := p
    by_cases hk : k = c
    · subst hk
      simp [collSet, collGet, hne]
    · simp [collSet, collGet, hk, ih]

theorem find?_append_of_none {α : Type} (p : α → Bool) (l l2 : List α)
    (h : List.find? p l = none) : List.find? p (l ++ l2) = List.find? p l2 := by
  rw [List.find?_append, h, Option.none_or]

theorem coll_create_document (db : DB) (c : String) (d : Doc) :
    ((create_document db c d).2).coll c = db.coll c ++ [("_id", Value.oid db.nextId) :: d] := by
  simp [create_document, DB.coll, collGet_collSet_self]

theorem docGet_cons (k : String) (v : Value) (d : Doc) (k2 : String) :
    docGet ((k, v) :: d) k2 = if k = k2 then some v else docGet d k2 := by
  by_cases h : k = k2 <;> simp [docGet, List.find?_cons, h]

theorem matchesFilter_nil (d : Doc) : matchesFilter [] d = true := rfl

theorem filter_matchesFilter_nil (l : List Doc) :
    List.filter (fun d => matchesFilter [] d) l = l := by
  simp [matchesFilter]

theorem hash_password_injective (p q : String) (h : hash_password p = hash_password q) :
    p = q := by
  have hd := congrArg String.data h
  simp only [hash_password, List.cons.injEq, true_and] at hd
  cases p
  cases q
  exact congrArg String.mk hd

theorem hash_password_ne_empty (p : String) : hash_password p ≠ "" := by
  intro h
  have hd := congrArg String.data h
  simp [hash_password] at hd

theorem verify_password_self (p : String) : verify_password p (hash_password p) = true := by
  simp [verify_password]

theorem verify_password_eq_false (p h : String) (hne : h ≠ hash_password p) :
    verify_password p h = false := by
  simp [verify_password, hne]

theorem find_one_create_of_none (db : DB) (c : String) (filter : List (String × Value))
    (d : Doc) (h : find_one db c filter = none) :
    find_one ((create_document db c d).2) c filter =
      (if matchesFilter filter (("_id", Value.oid db.nextId) :: d)
       then some (("_id", Value.oid db.nextId) :: d) else none) := by
  unfold find_one at h ⊢
  rw [coll_create_document, find?_append_of_none _ _ _ h]
  cases hm : matchesFilter filter (("_id", Value.oid db.nextId) :: d) <;>
    simp [List.find?_cons, hm]

theorem matches_email_user_doc (name password e : String) (n : Nat) :
    matchesFilter [("email", Value.str e)]
      (("_id", Value.oid n) ::
       [("name", Value.str name), ("email", Value.str e),
        ("password_hash", Value.str (hash_password password)),
        ("is_active", Value.bool true)]) = true := by
  simp [matchesFilter, docGet_cons,
    show ("_id" : String) ≠ "email" by decide,
    show ("name" : String) ≠ "email" by decide]

/-- The account document register persists for a payload, including the
store assigned identity. -/
def registeredUserDoc (name email password : String) (n : Nat) : Doc :=
  ("_id", Value.oid n) ::
    [("name", Value.str name),
     ("email", Value.str (pyLower email)),
     ("password_hash", Value.str (hash_password password)),
     ("is_active", Value.bool true)]

theorem register_fresh_eq (name email password : String) (db : DB)
    (hfresh : find_one db "user" [("email", Value.str (pyLower email))] = none) :
    register ⟨name, email, password⟩ (some db) =
      (.ok { id := toString db.nextId, name := name, email := pyLower email },
       some (create_document db "user"
         [("name", Value.str name), ("email", Value.str (pyLower email)),
          ("password_hash", Value.str (hash_password password)),
          ("is_active", Value.bool true)]).2) := by
  simp only [register]
  rw [hfresh]
  rfl

theorem find_one_email_after_register (name email password : String) (db : DB)
    (hfresh : find_one db "user" [("email", Value.str (pyLower email))] = none) :
    find_one ((create_document db "user"
        [("name", Value.str name), ("email", Value.str (pyLower email)),
         ("password_hash", Value.str (hash_password password)),
         ("is_active", Value.bool true)]).2) "user"
        [("email", Value.str (pyLower email))] =
      some (registeredUserDoc name email password db.nextId) := by
  rw [find_one_create_of_none _ _ _ _ hfresh, matches_email_user_doc]
  rfl

/-- C1: for every valid name, email and password (length at least 6), on a
store with no account under the normalized email, register succeeds and a
following login with the same credentials succeeds and returns the same
identity, name and email as register did. -/
theorem register_login_roundtrip (name email password : String) (db : DB)
    (_hlen : 6 ≤ password.length)
    (hfresh : find_one db "user" [("email", Value.str (pyLower email))] = none) :
    (register ⟨name, email, password⟩ (some db)).1 =
      .ok { id := toString db.nextId, name := name, email := pyLower email } ∧
    (login ⟨email, password⟩ ((register ⟨name, email, password⟩ (some db)).2)).1 =
      .ok { id := toString db.nextId, name := name, email := pyLower email } := by
  have hreg := register_fresh_eq name email password db hfresh
  refine ⟨by rw [hreg], ?_⟩
  rw [hreg]
  simp only [login]
  rw [find_one_email_after_register name email password db hfresh]
  simp [registeredUserDoc, docGetD, docGet_cons, pyStr, Value.asString, strField,
    verify_password_self,
    show ("_id" : String) ≠ "email" by decide,
    show ("name" : String) ≠ "email" by decide,
    show ("_id" : String) ≠ "password_hash" by decide,
    show ("name" : String) ≠ "password_hash" by decide,
    show ("email" : String) ≠ "password_hash" by decide,
    show ("_id" : String) ≠ "name" by decide]

/-- Witness for C1: the roundtrip at a concrete fresh store and payload. -/
theorem register_login_roundtrip_witness :
    6 ≤ ("secret" : String).length ∧
    find_one { colls := [], nextId := 0 } "user" [("email", Value.str (pyLower "B@x"))] = none ∧
    ((register ⟨"A", "B@x", "secret"⟩ (some { colls := [], nextId := 0 })).1 =
       .ok { id := toString (0 : Nat), name := "A", email := pyLower "B@x" } ∧
     (login ⟨"B@x", "secret"⟩
        ((register ⟨"A", "B@x", "secret"⟩ (some { colls := [], nextId := 0 })).2)).1 =
       .ok { id := toString (0 : Nat), name := "A", email := pyLower "B@x" }) :=
  ⟨by decide, rfl,
   register_login_roundtrip "A" "B@x" "secret" { colls := [], nextId := 0 } (by decide) rfl⟩

/-- C2: on a store with no account under the normalized email, two
sequential register calls whose emails agree after lowercasing make the
first call succeed and the second fail with the DuplicateEmail error. -/
theorem register_duplicate_email (n1 e1 p1 n2 e2 p2 : String) (db : DB)
    (hfresh : find_one db "user" [("email", Value.str (pyLower e1))] = none)
    (hsame : pyLower e2 = pyLower e1) :
    ((register ⟨n1, e1, p1⟩ (some db)).1).isOk = true ∧
    (register ⟨n2, e2, p2⟩ ((register ⟨n1, e1, p1⟩ (some db)).2)).1 =
      .error duplicateEmailError := by
  have hreg := register_fresh_eq n1 e1 p1 db hfresh
  refine ⟨by rw [hreg]; rfl, ?_⟩
  rw [hreg]
  simp only [register]
  rw [hsame, find_one_email_after_register n1 e1 p1 db hfresh]

/-- Witness for C2: a register calls pair on a concrete empty store, with
the second email differing from the first only in case. -/
theorem register_duplicate_email_witness :
    find_one { colls := [], nextId := 0 } "user" [("email", Value.str (pyLower "A@x"))] = none ∧
    pyLower "a@X" = pyLower "A@x" ∧
    (((register ⟨"N", "A@x", "pw1234"⟩ (some { colls := [], nextId := 0 })).1).isOk = true ∧
     (register ⟨"M", "a@X", "pw5678"⟩
        ((register ⟨"N", "A@x", "pw1234"⟩ (some { colls := [], nextId := 0 })).2)).1 =
       .error duplicateEmailError) :=
  ⟨rfl, by decide,
   register_duplicate_email "N" "A@x" "pw1234" "M" "a@X" "pw5678"
     { colls := [], nextId := 0 } rfl (by decide)⟩

/-- C3: verify is a total boolean function: it returns false, not an
error, on any hash that is not the hash of the plaintext (mismatches and
malformed strings) and on the empty hash; consequently login against a
stored account document lacking a password_hash field fails with
InvalidCredentials rather than a server error. -/
theorem verify_false_never_error (p h e : String) (db : DB) (doc : Doc)
    (hne : h ≠ hash_password p)
    (hfind : find_one db "user" [("email", Value.str (pyLower e))] = some doc)
    (hnohash : docGet doc "password_hash" = none) :
    verify_password p h = false ∧
    verify_password p "" = false ∧
    (login ⟨e, p⟩ (some db)).1 = .error invalidCredentialsError := by
  have hempty : verify_password p "" = false :=
    verify_password_eq_false p "" (fun hh => hash_password_ne_empty p hh.symm)
  refine ⟨verify_password_eq_false p h hne, hempty, ?_⟩
  simp only [login]
  rw [hfind]
  have hd : Value.asString (docGetD doc "password_hash" (Value.str "")) = "" := by
    rw [docGetD, hnohash]
    rfl
  simp [hd, hempty]

/-- Witness for C3: a wrong hash string and a stored user document without
a password_hash field, on a concrete store. -/
theorem verify_false_never_error_witness :
    "zz" ≠ hash_password "a" ∧
    find_one { colls := [("user", [[("email", Value.str "u@x")]])], nextId := 1 } "user"
      [("email", Value.str (pyLower "u@x"))] = some [("email", Value.str "u@x")] ∧
    docGet [("email", Value.str "u@x")] "password_hash" = none ∧
    (verify_password "a" "zz" = false ∧
     verify_password "a" "" = false ∧
     (login ⟨"u@x", "a"⟩
        (some { colls := [("user", [[("email", Value.str "u@x")]])], nextId := 1 })).1 =
       .error invalidCredentialsError) :=
  ⟨by decide, by decide, rfl,
   verify_false_never_error "a" "zz" "u@x"
     { colls := [("user", [[("email", Value.str "u@x")]])], nextId := 1 }
     [("email", Value.str "u@x")] (by decide) (by decide) rfl⟩

/-- C4: hash then verify round-trips: verifying a plaintext against its
own hash yields true, and against the hash of a different plaintext yields
false. -/
theorem hash_verify_roundtrip (p q : String) (hne : p ≠ q) :
    verify_password p (hash_password p) = true ∧
    verify_password p (hash_password q) = false := by
  refine ⟨verify_password_self p, verify_password_eq_false p _ ?_⟩
  intro hh
  exact hne (hash_password_injective q p hh).symm

/-- Witness for C4: the round trip at two concrete distinct plaintexts. -/
theorem hash_verify_roundtrip_witness :
    ("a" : String) ≠ "b" ∧
    (verify_password "a" (hash_password "a") = true ∧
     verify_password "a" (hash_password "b") = false) :=
  ⟨by decide, hash_verify_roundtrip "a" "b" (by decide)⟩

/-- C5: after a successful registration, login with the registered email
but a wrong password and login with an email under which no account exists
both fail with the very same InvalidCredentials error value, so the two
cases are indistinguishable to the caller. -/
theorem login_error_indistinguishable (n e q p e2 : String) (db db2 : DB)
    (resp : AuthResponse)
    (hreg : register ⟨n, e, q⟩ (some db) = (.ok resp, some db2))
    (hp : p ≠ q)
    (hfresh2 : find_one db2 "user" [("email", Value.str (pyLower e2))] = none) :
    (login ⟨e, p⟩ (some db2)).1 = .error invalidCredentialsError ∧
    (login ⟨e2, p⟩ (some db2)).1 = .error invalidCredentialsError := by
  cases hfind : find_one db "user" [("email", Value.str (pyLower e))] with
  | some d =>
    rw [register] at hreg
    rw [hfind] at hreg
    simp at hreg
  | none =>
    rw [register_fresh_eq n e q db hfind] at hreg
    simp only [Prod.mk.injEq, Except.ok.injEq, Option.some.injEq] at hreg
    obtain ⟨-, hdb2⟩ := hreg
    subst hdb2
    constructor
    · simp only [login]
      rw [find_one_email_after_register n e q db hfind]
      have hv : verify_password p (hash_password q) = false := by
        refine verify_password_eq_false p _ ?_
        intro hh
        exact hp (hash_password_injective q p hh).symm
      simp [registeredUserDoc, docGetD, docGet_cons, Value.asString, hv,
        show ("_id" : String) ≠ "password_hash" by decide,
        show ("name" : String) ≠ "password_hash" by decide,
        show ("email" : String) ≠ "password_hash" by decide]
    · simp only [login]
      rw [hfresh2]

/-- Witness for C5: a concrete registration followed by a wrong password
login and an unknown email login. -/
theorem login_error_indistinguishable_witness :
    register ⟨"N", "u@x", "pw1234"⟩ (some { colls := [], nextId := 0 }) =
      (.ok { id := "0", name := "N", email := "u@x" },
       some { colls := [("user",
          [[("_id", Value.oid 0), ("name", Value.str "N"), ("email", Value.str "u@x"),
            ("password_hash", Value.str (hash_password "pw1234")),
            ("is_active", Value.bool true)]])], nextId := 1 }) ∧
    ("zz" : String) ≠ "pw1234" ∧
    find_one { colls := [("user",
        [[("_id", Value.oid 0), ("name", Value.str "N"), ("email", Value.str "u@x"),
          ("password_hash", Value.str (hash_password "pw1234")),
          ("is_active", Value.bool true)]])], nextId := 1 } "user"
      [("email", Value.str (pyLower "v@x"))] = none ∧
    ((login ⟨"u@x", "zz"⟩ (some { colls := [("user",
        [[("_id", Value.oid 0), ("name", Value.str "N"), ("email", Value.str "u@x"),
          ("password_hash", Value.str (hash_password "pw1234")),
          ("is_active", Value.bool true)]])], nextId := 1 })).1 =
        .error invalidCredentialsError ∧
     (login ⟨"v@x", "zz"⟩ (some { colls := [("user",
        [[("_id", Value.oid 0), ("name", Value.str "N"), ("email", Value.str "u@x"),
          ("password_hash", Value.str (hash_password "pw1234")),
          ("is_active", Value.bool true)]])], nextId := 1 })).1 =
        .error invalidCredentialsError) :=
  ⟨by decide, by decide, by decide,
   login_error_indistinguishable "N" "u@x" "pw1234" "zz" "v@x"
     { colls := [], nextId := 0 }
     { colls := [("user",
        [[("_id", Value.oid 0), ("name", Value.str "N"), ("email", Value.str "u@x"),
          ("password_hash", Value.str (hash_password "pw1234")),
          ("is_active", Value.bool true)]])], nextId := 1 }
     { id := "0", name := "N", email := "u@x" } (by decide) (by decide) (by decide)⟩

/-- Login never writes: its database component is returned unchanged. -/
theorem login_snd (lp : LoginRequest) (db : DB) : (login lp (some db)).2 = some db := by
  simp only [login]
  cases find_one db "user" [("email", Value.str (pyLower lp.email))] with
  | none => rfl
  | some user =>
    by_cases hv : verify_password lp.password
        (Value.asString (docGetD user "password_hash" (Value.str ""))) = true
    · simp [hv]
    · simp [hv]

/-- C8: every service operation called while the store is not initialized
fails with the StorageUnavailable error, with no state to read or write at
all (the output store is still uninitialized). -/
theorem storage_unavailable_all (rp : RegisterRequest) (lp : LoginRequest)
    (cp : ContactRequest) :
    register rp none = (.error storageUnavailableError, none) ∧
    login lp none = (.error storageUnavailableError, none) ∧
    create_contact cp none = (.error storageUnavailableError, none) ∧
    list_blog none = (.error storageUnavailableError, none) :=
  ⟨rfl, rfl, rfl, rfl⟩

/-- C9: failing service calls are atomic: a register call that fails with
DuplicateEmail and a login call that fails with InvalidCredentials both
return the store exactly as it was, so no collection is modified on the
error paths. -/
theorem error_paths_preserve_store (rp : RegisterRequest) (lp : LoginRequest) (db : DB) :
    ((register rp (some db)).1 = .error duplicateEmailError →
      (register rp (some db)).2 = some db) ∧
    ((login lp (some db)).1 = .error invalidCredentialsError →
      (login lp (some db)).2 = some db) := by
  refine ⟨?_, fun _ => login_snd lp db⟩
  intro h
  cases hfind : find_one db "user" [("email", Value.str (pyLower rp.email))] with
  | some d => simp [register, hfind]
  | none =>
    rw [register] at h
    rw [hfind] at h
    simp at h

/-- Witness for C9: a duplicate registration and an unknown email login on
a concrete store with one account. -/
theorem error_paths_preserve_store_witness :
    ((register ⟨"B", "a@x", "secret"⟩
        (some { colls := [("user", [[("email", Value.str "a@x")]])], nextId := 1 })).1 =
      .error duplicateEmailError →
      (register ⟨"B", "a@x", "secret"⟩
        (some { colls := [("user", [[("email", Value.str "a@x")]])], nextId := 1 })).2 =
      some { colls := [("user", [[("email", Value.str "a@x")]])], nextId := 1 }) ∧
    ((login ⟨"nobody@x", "p"⟩
        (some { colls := [("user", [[("email", Value.str "a@x")]])], nextId := 1 })).1 =
      .error invalidCredentialsError →
      (login ⟨"nobody@x", "p"⟩
        (some { colls := [("user", [[("email", Value.str "a@x")]])], nextId := 1 })).2 =
      some { colls := [("user", [[("email", Value.str "a@x")]])], nextId := 1 }) ∧
    (register ⟨"B", "a@x", "secret"⟩
        (some { colls := [("user", [[("email", Value.str "a@x")]])], nextId := 1 })).2 =
      some { colls := [("user", [[("email", Value.str "a@x")]])], nextId := 1 } ∧
    (login ⟨"nobody@x", "p"⟩
        (some { colls := [("user", [[("email", Value.str "a@x")]])], nextId := 1 })).2 =
      some { colls := [("user", [[("email", Value.str "a@x")]])], nextId := 1 } :=
  ⟨(error_paths_preserve_store ⟨"B", "a@x", "secret"⟩ ⟨"nobody@x", "p"⟩
      { colls := [("user", [[("email", Value.str "a@x")]])], nextId := 1 }).1,
   (error_paths_preserve_store ⟨"B", "a@x", "secret"⟩ ⟨"nobody@x", "p"⟩
      { colls := [("user", [[("email", Value.str "a@x")]])], nextId := 1 }).2,
   (error_paths_preserve_store ⟨"B", "a@x", "secret"⟩ ⟨"nobody@x", "p"⟩
      { colls := [("user", [[("email", Value.str "a@x")]])], nextId := 1 }).1 (by decide),
   (error_paths_preserve_store ⟨"B", "a@x", "secret"⟩ ⟨"nobody@x", "p"⟩
      { colls := [("user", [[("email", Value.str "a@x")]])], nextId := 1 }).2 (by decide)⟩

/-- Seeding an empty blogpost collection stores exactly the three demo
posts, each with its store assigned identity. -/
theorem seed_coll_eq (db : DB) (hempty : db.coll "blogpost" = []) :
    (seedDemos db).coll "blogpost" =
      [("_id", Value.oid db.nextId) :: demo1,
       ("_id", Value.oid (db.nextId + 1)) :: demo2,
       ("_id", Value.oid (db.nextId + 2)) :: demo3] := by
  rw [DB.coll] at hempty
  simp [seedDemos, demos, create_document, DB.coll, collGet_collSet_self, hempty, List.foldl]

theorem get_documents_seed (db : DB) (hempty : db.coll "blogpost" = []) :
    get_documents (seedDemos db) "blogpost" [] 50 =
      [("_id", Value.oid db.nextId) :: demo1,
       ("_id", Value.oid (db.nextId + 1)) :: demo2,
       ("_id", Value.oid (db.nextId + 2)) :: demo3] := by
  rw [get_documents, seed_coll_eq db hempty, filter_matchesFilter_nil]
  rfl

theorem list_blog_first (db : DB) (hempty : db.coll "blogpost" = []) :
    list_blog (some db) =
      (.ok (List.map normalizeBlog ((seedDemos db).coll "blogpost")), some (seedDemos db)) := by
  have h0 : get_documents db "blogpost" [] 50 = [] := by
    rw [get_documents, hempty]
    rfl
  simp only [list_blog]
  rw [h0]
  simp only [List.isEmpty_nil, if_true]
  rw [get_documents_seed db hempty, seed_coll_eq db hempty]

theorem list_blog_second (db : DB) (hempty : db.coll "blogpost" = []) :
    list_blog (some (seedDemos db)) =
      (.ok (List.map normalizeBlog ((seedDemos db).coll "blogpost")), some (seedDemos db)) := by
  simp only [list_blog]
  rw [get_documents_seed db hempty, seed_coll_eq db hempty]
  rfl

/-- C6: on an empty blogpost collection, listBlog inserts exactly the
three fixed demo posts and returns exactly their three entries, whose
slugs are announcing-cardify, glassmorphism-design and infra-stack; a
second sequential call returns the same entries and leaves the store
untouched (no re-seeding). -/
theorem list_blog_seeds_once (db : DB) (hempty : db.coll "blogpost" = []) :
    list_blog (some db) =
      (.ok (List.map normalizeBlog ((seedDemos db).coll "blogpost")), some (seedDemos db)) ∧
    (seedDemos db).coll "blogpost" =
      [("_id", Value.oid db.nextId) :: demo1,
       ("_id", Value.oid (db.nextId + 1)) :: demo2,
       ("_id", Value.oid (db.nextId + 2)) :: demo3] ∧
    List.map BlogItem.slug (List.map normalizeBlog ((seedDemos db).coll "blogpost")) =
      ["announcing-cardify", "glassmorphism-design", "infra-stack"] ∧
    list_blog (some (seedDemos db)) =
      (.ok (List.map normalizeBlog ((seedDemos db).coll "blogpost")), some (seedDemos db)) := by
  refine ⟨list_blog_first db hempty, seed_coll_eq db hempty, ?_, list_blog_second db hempty⟩
  rw [seed_coll_eq db hempty]
  simp [normalizeBlog, demo1, demo2, demo3, docGet_cons, Value.asString,
    show ("_id" : String) ≠ "slug" by decide,
    show ("title" : String) ≠ "slug" by decide]

/-- Witness for C6: the seeding behaviour at the concrete empty store. -/
theorem list_blog_seeds_once_witness :
    DB.coll { colls := [], nextId := 0 } "blogpost" = [] ∧
    (list_blog (some { colls := [], nextId := 0 }) =
       (.ok (List.map normalizeBlog
          ((seedDemos { colls := [], nextId := 0 }).coll "blogpost")),
        some (seedDemos { colls := [], nextId := 0 })) ∧
     (seedDemos { colls := [], nextId := 0 }).coll "blogpost" =
       [("_id", Value.oid 0) :: demo1,
        ("_id", Value.oid (0 + 1)) :: demo2,
        ("_id", Value.oid (0 + 2)) :: demo3] ∧
     List.map BlogItem.slug (List.map normalizeBlog
         ((seedDemos { colls := [], nextId := 0 }).coll "blogpost")) =
       ["announcing-cardify", "glassmorphism-design", "infra-stack"] ∧
     list_blog (some (seedDemos { colls := [], nextId := 0 })) =
       (.ok (List.map normalizeBlog
          ((seedDemos { colls := [], nextId := 0 }).coll "blogpost")),
        some (seedDemos { colls := [], nextId := 0 }))) :=
  ⟨rfl, list_blog_seeds_once { colls := [], nextId := 0 } rfl⟩

/-- C7: every stored blog document appears in the listBlog output through
the normalization: a missing title becomes Untitled, a missing slug
becomes the string rendering of the document identity, a missing content
becomes the empty string, and missing excerpt, author and tags stay
absent. -/
theorem list_blog_normalizes (db : DB) (p : Doc)
    (hmem : p ∈ get_documents db "blogpost" [] 50)
    (hne : get_documents db "blogpost" [] 50 ≠ []) :
    list_blog (some db) =
      (.ok (List.map normalizeBlog (get_documents db "blogpost" [] 50)), some db) ∧
    normalizeBlog p ∈ List.map normalizeBlog (get_documents db "blogpost" [] 50) ∧
    (docGet p "title" = none → (normalizeBlog p).title = "Untitled") ∧
    (docGet p "slug" = none →
      (normalizeBlog p).slug = Value.asString (docGetD p "_id" (Value.str "post"))) ∧
    (docGet p "content" = none → (normalizeBlog p).content = "") ∧
    (docGet p "excerpt" = none → (normalizeBlog p).excerpt = none) ∧
    (docGet p "author" = none → (normalizeBlog p).author = none) ∧
    (docGet p "tags" = none → (normalizeBlog p).tags = none) := by
  refine ⟨?_, List.mem_map_of_mem normalizeBlog hmem, ?_, ?_, ?_, ?_, ?_, ?_⟩
  · simp only [list_blog]
    rw [if_neg]
    intro hval
    exact hne (List.isEmpty_iff.mp hval)
  all_goals intro h
  all_goals simp [normalizeBlog, h]

/-- Witness for C7: a stored blog document with every field missing, on a
concrete store whose blogpost collection holds just that document. -/
theorem list_blog_normalizes_witness :
    ([] : Doc) ∈ get_documents { colls := [("blogpost", [[]])], nextId := 5 } "blogpost" [] 50 ∧
    get_documents { colls := [("blogpost", [[]])], nextId := 5 } "blogpost" [] 50 ≠ [] ∧
    (list_blog (some { colls := [("blogpost", [[]])], nextId := 5 }) =
       (.ok (List.map normalizeBlog
          (get_documents { colls := [("blogpost", [[]])], nextId := 5 } "blogpost" [] 50)),
        some { colls := [("blogpost", [[]])], nextId := 5 }) ∧
     normalizeBlog [] ∈ List.map normalizeBlog
        (get_documents { colls := [("blogpost", [[]])], nextId := 5 } "blogpost" [] 50) ∧
     (docGet [] "title" = none → (normalizeBlog []).title = "Untitled") ∧
     (docGet [] "slug" = none →
       (normalizeBlog []).slug = Value.asString (docGetD [] "_id" (Value.str "post"))) ∧
     (docGet [] "content" = none → (normalizeBlog []).content = "") ∧
     (docGet [] "excerpt" = none → (normalizeBlog []).excerpt = none) ∧
     (docGet [] "author" = none → (normalizeBlog []).author = none) ∧
     (docGet [] "tags" = none → (normalizeBlog []).tags = none)) :=
  ⟨by decide, by decide,
   list_blog_normalizes { colls := [("blogpost", [[]])], nextId := 5 } [] (by decide) (by decide)⟩

/-! ### Lowercasing facts for the email normalization claim -/

theorem toNat_bounds_of_isUpper (c : Char) (h : c.isUpper = true) :
    65 ≤ c.toNat ∧ c.toNat ≤ 90 := by
  simp only [Char.isUpper, Bool.and_eq_true, decide_eq_true_eq] at h
  exact ⟨h.1, h.2⟩

theorem ofNat_toNat_key : ∀ m, m < 91 → 65 ≤ m → (Char.ofNat (m + 32)).toNat = m + 32 := by
  decide

theorem toLower_ne_self_of_isUpper (c : Char) (h : c.isUpper = true) : c.toLower ≠ c := by
  obtain ⟨h1, h2⟩ := toNat_bounds_of_isUpper c h
  have hlow : c.toLower = Char.ofNat (c.toNat + 32) := by
    simp only [Char.toLower]
    rw [if_pos]
    exact ⟨h1, h2⟩
  intro heq
  have hn := congrArg Char.toNat heq
  rw [hlow, ofNat_toNat_key c.toNat (by omega) h1] at hn
  omega

theorem map_eq_self_forall {α : Type} (f : α → α) (l : List α) (h : l.map f = l) :
    ∀ a ∈ l, f a = a := by
  induction l with
  | nil =>
    intro a ha
    cases ha
  | cons x t ih =>
    simp only [List.map_cons, List.cons.injEq] at h
    intro a ha
    rcases List.mem_cons.mp ha with rfl | hat
    · exact h.1
    · exact ih h.2 a hat

theorem pyLower_ne_of_upper (s : String) (c : Char) (hc : c ∈ s.data)
    (hu : c.isUpper = true) : pyLower s ≠ s := by
  intro h
  have hd : s.data.map Char.toLower = s.data := congrArg String.data h
  exact toLower_ne_self_of_isUpper c hu (map_eq_self_forall Char.toLower s.data hd c hc)

/-- C10: a successful register returns and persists the lowercase
normalization of the supplied email; when the supplied email contains an
uppercase letter, the returned email therefore differs from the supplied
one. -/
theorem register_email_normalized (rp : RegisterRequest) (db : DB)
    (resp : AuthResponse) (db2 : Option DB)
    (h : register rp (some db) = (.ok resp, db2)) :
    resp.email = pyLower rp.email ∧
    db2 = some ((create_document db "user"
        [("name", Value.str rp.name), ("email", Value.str (pyLower rp.email)),
         ("password_hash", Value.str (hash_password rp.password)),
         ("is_active", Value.bool true)]).2) ∧
    ((create_document db "user"
        [("name", Value.str rp.name), ("email", Value.str (pyLower rp.email)),
         ("password_hash", Value.str (hash_password rp.password)),
         ("is_active", Value.bool true)]).2).coll "user" =
      db.coll "user" ++ [registeredUserDoc rp.name rp.email rp.password db.nextId] ∧
    docGet (registeredUserDoc rp.name rp.email rp.password db.nextId) "email" =
      some (Value.str (pyLower rp.email)) ∧
    ((∃ c ∈ rp.email.data, c.isUpper = true) → resp.email ≠ rp.email) := by
  obtain ⟨nm, em, pw⟩ := rp
  cases hfind : find_one db "user" [("email", Value.str (pyLower em))] with
  | some d =>
    rw [register] at h
    rw [hfind] at h
    simp at h
  | none =>
    rw [register_fresh_eq nm em pw db hfind] at h
    simp only [Prod.mk.injEq, Except.ok.injEq] at h
    obtain ⟨hresp, hdb2⟩ := h
    subst hresp
    subst hdb2
    refine ⟨rfl, rfl, ?_, ?_, ?_⟩
    · rw [coll_create_document]
      rfl
    · simp [registeredUserDoc, docGet_cons,
        show ("_id" : String) ≠ "email" by decide,
        show ("name" : String) ≠ "email" by decide]
    · rintro ⟨c, hc, hu⟩
      exact pyLower_ne_of_upper em c hc hu

/-- Witness for C10: a concrete registration with a mixed case email. -/
theorem register_email_normalized_witness :
    register ⟨"N", "Bob@X", "secret"⟩ (some { colls := [], nextId := 0 }) =
      (.ok { id := "0", name := "N", email := "bob@x" },
       some ((create_document { colls := [], nextId := 0 } "user"
          [("name", Value.str "N"), ("email", Value.str (pyLower "Bob@X")),
           ("password_hash", Value.str (hash_password "secret")),
           ("is_active", Value.bool true)]).2)) ∧
    (("bob@x" : String) = pyLower "Bob@X" ∧
     some ((create_document { colls := [], nextId := 0 } "user"
        [("name", Value.str "N"), ("email", Value.str (pyLower "Bob@X")),
         ("password_hash", Value.str (hash_password "secret")),
         ("is_active", Value.bool true)]).2) =
       some ((create_document { colls := [], nextId := 0 } "user"
          [("name", Value.str "N"), ("email", Value.str (pyLower "Bob@X")),
           ("password_hash", Value.str (hash_password "secret")),
           ("is_active", Value.bool true)]).2) ∧
     ((create_document { colls := [], nextId := 0 } "user"
        [("name", Value.str "N"), ("email", Value.str (pyLower "Bob@X")),
         ("password_hash", Value.str (hash_password "secret")),
         ("is_active", Value.bool true)]).2).coll "user" =
       DB.coll { colls := [], nextId := 0 } "user" ++
         [registeredUserDoc "N" "Bob@X" "secret" 0] ∧
     docGet (registeredUserDoc "N" "Bob@X" "secret" 0) "email" =
       some (Value.str (pyLower "Bob@X")) ∧
     ((∃ c ∈ ("Bob@X" : String).data, c.isUpper = true) →
       ("bob@x" : String) ≠ "Bob@X")) ∧
    ("bob@x" : String) ≠ "Bob@X" :=
  ⟨by decide,
   register_email_normalized ⟨"N", "Bob@X", "secret"⟩ { colls := [], nextId := 0 }
     { id := "0", name := "N", email := "bob@x" }
     (some ((create_document { colls := [], nextId := 0 } "user"
        [("name", Value.str "N"), ("email", Value.str (pyLower "Bob@X")),
         ("password_hash", Value.str (hash_password "secret")),
         ("is_active", Value.bool true)]).2)) (by decide),
   (register_email_normalized ⟨"N", "Bob@X", "secret"⟩ { colls := [], nextId := 0 }
     { id := "0", name := "N", email := "bob@x" }
     (some ((create_document { colls := [], nextId := 0 } "user"
        [("name", Value.str "N"), ("email", Value.str (pyLower "Bob@X")),
         ("password_hash", Value.str (hash_password "secret")),
         ("is_active", Value.bool true)]).2)) (by decide)).2.2.2.2 (by decide)⟩
